import Mathlib

/-!
Verification of the Movie-recommendation system.

The repository ships the React client (`App.jsx`); the recommendation
engine, history store and statistics aggregator described by the design
document are external to the shipped sources, so they are modelled here
from the specification text.  The client-side state transitions
(`getRecommendations`, `deleteHistoryItem`, `clearAllHistory`) are
embedded directly from `App.jsx`.
-/

/-! ## Core data model (spec §3) -/

/-- Modelled from the spec: a catalog movie (spec §3 "Movie"): stable id,
title, release year, language, genre set, overview (kept as its token
list, which is what the text-feature builder consumes), rating. -/
structure Movie where
  id : ℕ
  title : String
  year : ℤ
  language : String
  genres : List String
  overview : List String
  rating : ℚ
deriving DecidableEq, Repr

/-- Modelled from the spec: a SimilarityQuery (spec §3): movie name,
optional language filter (`none` = any language), and the two
similarity weights. -/
structure SimilarityQuery where
  movieName : String
  languageFilter : Option String
  genreWeight : ℚ
  overviewWeight : ℚ
deriving DecidableEq, Repr

/-- Modelled from the spec: the error taxonomy of spec §7 relevant to the
Recommend operation: `ValidationError` with a human-readable reason, and
`NotFound`. -/
inductive RecommendError where
  | validation (reason : String)
  | notFound
deriving DecidableEq, Repr

/-- A scored candidate before ranking: the candidate movie together with
its three similarity scores (spec §4.4). -/
structure RecCore where
  movie : Movie
  genreSimilarity : ℝ
  overviewSimilarity : ℝ
  combinedSimilarity : ℝ

/-- Modelled from the spec: a Recommendation (spec §3): reference to a
candidate movie, the three similarity scores, and the 1-based rank. -/
structure Recommendation where
  movie : Movie
  genreSimilarity : ℝ
  overviewSimilarity : ℝ
  combinedSimilarity : ℝ
  rank : ℕ

/-- Modelled from the spec: output of a successful Recommend operation
(spec §6): searched movie snapshot, ordered recommendation sequence, and
an explanatory message when the sequence is empty. -/
structure RecommendResult where
  searched : Movie
  recommendations : List Recommendation
  message : Option String

/-- Modelled from the spec: the context object built at startup (spec §2,
§9): the loaded catalog plus the fitted text feature space (term
vocabulary and inverse-document-frequency weights, which are nonnegative
by construction of IDF). -/
structure Context where
  catalog : List Movie
  termVocab : List String
  idf : List ℚ
  idf_nonneg : ∀ w ∈ idf, 0 ≤ w

/-! ## Vector arithmetic and cosine similarity (spec §4.2, §4.4) -/

/-- Dot product of two feature vectors; `zipWith` truncates to the
shorter length, matching same-space vectors exactly. -/
def dotR (u v : List ℝ) : ℝ := (List.zipWith (· * ·) u v).sum

theorem dotR_nil_left (v : List ℝ) : dotR [] v = 0 := rfl

theorem dotR_nil_right (u : List ℝ) : dotR u [] = 0 := by
  cases u <;> rfl

theorem dotR_cons (a b : ℝ) (u v : List ℝ) :
    dotR (a :: u) (b :: v) = a * b + dotR u v := by
  simp [dotR]

theorem dotR_self_nonneg (u : List ℝ) : 0 ≤ dotR u u := by
  induction u with
  | nil => simp [dotR]
  | cons a u ih =>
      rw [dotR_cons]
      have : 0 ≤ a * a := mul_self_nonneg a
      linarith

theorem dotR_nonneg {u v : List ℝ} (hu : ∀ x ∈ u, 0 ≤ x)
    (hv : ∀ x ∈ v, 0 ≤ x) : 0 ≤ dotR u v := by
  induction u generalizing v with
  | nil => simp [dotR]
  | cons a u ih =>
      cases v with
      | nil => simp [dotR]
      | cons b v =>
          rw [dotR_cons]
          have ha : 0 ≤ a := hu a (by simp)
          have hb : 0 ≤ b := hv b (by simp)
          have hrest : 0 ≤ dotR u v :=
            ih (fun x hx => hu x (by simp [hx])) (fun x hx => hv x (by simp [hx]))
          have : 0 ≤ a * b := mul_nonneg ha hb
          linarith

/-- The dot product as a `Finset.range` sum over padded coordinates. -/
theorem dotR_eq_sum (u : List ℝ) : ∀ (v : List ℝ) (n : ℕ),
    min u.length v.length ≤ n →
    dotR u v = ∑ i ∈ Finset.range n, u.getD i 0 * v.getD i 0 := by
  induction u with
  | nil =>
      intro v n _
      simp [dotR]
  | cons a u ih =>
      intro v n hn
      cases v with
      | nil => simp [dotR_nil_right]
      | cons b v =>
          cases n with
          | zero => simp at hn
          | succ m =>
              rw [dotR_cons, Finset.sum_range_succ']
              have hm : min u.length v.length ≤ m := by
                simp only [List.length_cons] at hn
                omega
              rw [ih v m hm]
              simp [add_comm]

open Classical in
/-- Modelled from the spec: cosine similarity (spec glossary): dot product
divided by the product of magnitudes, defined as 0 when either vector has
zero magnitude (spec §4.4). -/
noncomputable def cosineSim (u v : List ℝ) : ℝ :=
  if dotR u u = 0 ∨ dotR v v = 0 then 0
  else dotR u v / (Real.sqrt (dotR u u) * Real.sqrt (dotR v v))

/-- Cauchy–Schwarz for `dotR`. -/
theorem dotR_le_sqrt_mul_sqrt (u v : List ℝ) :
    dotR u v ≤ Real.sqrt (dotR u u) * Real.sqrt (dotR v v) := by
  set n := max u.length v.length with hn
  have h1 : min u.length v.length ≤ n := le_trans (min_le_left _ _) (le_max_left _ _)
  have hu : min u.length u.length ≤ n := by simp [hn]
  have hv : min v.length v.length ≤ n := by simp [hn]
  rw [dotR_eq_sum u v n h1, dotR_eq_sum u u n hu, dotR_eq_sum v v n hv]
  have := Real.sum_mul_le_sqrt_mul_sqrt (Finset.range n)
    (fun i => u.getD i 0) (fun i => v.getD i 0)
  calc ∑ i ∈ Finset.range n, u.getD i 0 * v.getD i 0
      ≤ Real.sqrt (∑ i ∈ Finset.range n, u.getD i 0 ^ 2) *
        Real.sqrt (∑ i ∈ Finset.range n, v.getD i 0 ^ 2) := this
    _ = _ := by
        congr 1 <;> · congr 1; apply Finset.sum_congr rfl; intro i _; ring

theorem cosineSim_nonneg {u v : List ℝ} (hu : ∀ x ∈ u, 0 ≤ x)
    (hv : ∀ x ∈ v, 0 ≤ x) : 0 ≤ cosineSim u v := by
  unfold cosineSim
  split
  · exact le_refl 0
  · exact div_nonneg (dotR_nonneg hu hv)
      (mul_nonneg (Real.sqrt_nonneg _) (Real.sqrt_nonneg _))

theorem cosineSim_le_one (u v : List ℝ) : cosineSim u v ≤ 1 := by
  unfold cosineSim
  split
  · exact zero_le_one
  · rename_i h
    push_neg at h
    obtain ⟨hu0, hv0⟩ := h
    have hu : 0 < dotR u u := lt_of_le_of_ne (dotR_self_nonneg u) (Ne.symm hu0)
    have hv : 0 < dotR v v := lt_of_le_of_ne (dotR_self_nonneg v) (Ne.symm hv0)
    have hden : 0 < Real.sqrt (dotR u u) * Real.sqrt (dotR v v) :=
      mul_pos (Real.sqrt_pos.mpr hu) (Real.sqrt_pos.mpr hv)
    rw [div_le_one hden]
    exact dotR_le_sqrt_mul_sqrt u v

/-! ## Feature vectors (spec §4.2) -/

/-- Modelled from the spec: the sorted set of distinct genre tokens
observed across the catalog (spec §3 "GenreVocabulary"). -/
def buildGenreVocabulary (catalog : List Movie) : List String :=
  List.insertionSort (· ≤ ·) ((catalog.map Movie.genres).flatten.dedup)

def genreVocabulary (ctx : Context) : List String :=
  buildGenreVocabulary ctx.catalog

/-- Modelled from the spec: multi-hot genre vector over the vocabulary
(spec §4.2): 1.0 where the genre is present, 0.0 otherwise. -/
def genreVector (vocab : List String) (m : Movie) : List ℝ :=
  vocab.map (fun g => if g ∈ m.genres then (1 : ℝ) else 0)

/-- Number of occurrences of term `t` in a token list. -/
def termCount (terms : List String) (t : String) : ℕ :=
  (terms.filter (fun x => x == t)).length

/-- Modelled from the spec: raw term-frequency-times-IDF vector of a
movie's overview over the fitted text feature space (spec §4.2). -/
def tfidfVector (ctx : Context) (m : Movie) : List ℝ :=
  (ctx.termVocab.zip ctx.idf).map
    (fun p => (termCount m.overview p.1 : ℝ) * (p.2 : ℝ))

/-- L2 normalization (spec §4.2); maps the zero vector to itself because
division by `Real.sqrt 0 = 0` yields 0 componentwise. -/
noncomputable def l2normalize (v : List ℝ) : List ℝ :=
  v.map (fun x => x / Real.sqrt (dotR v v))

/-- Modelled from the spec: the normalized overview term vector of a
movie (spec §4.2). -/
noncomputable def overviewVector (ctx : Context) (m : Movie) : List ℝ :=
  l2normalize (tfidfVector ctx m)

theorem genreVector_nonneg (vocab : List String) (m : Movie) :
    ∀ x ∈ genreVector vocab m, 0 ≤ x := by
  intro x hx
  simp only [genreVector, List.mem_map] at hx
  obtain ⟨g, _, rfl⟩ := hx
  split <;> norm_num

theorem tfidfVector_nonneg (ctx : Context) (m : Movie) :
    ∀ x ∈ tfidfVector ctx m, 0 ≤ x := by
  intro x hx
  simp only [tfidfVector, List.mem_map] at hx
  obtain ⟨p, hp, rfl⟩ := hx
  have hidf : 0 ≤ p.2 := ctx.idf_nonneg p.2 (List.of_mem_zip hp).2
  have : (0 : ℝ) ≤ (p.2 : ℝ) := by exact_mod_cast hidf
  positivity

theorem l2normalize_nonneg {v : List ℝ} (hv : ∀ x ∈ v, 0 ≤ x) :
    ∀ x ∈ l2normalize v, 0 ≤ x := by
  intro x hx
  simp only [l2normalize, List.mem_map] at hx
  obtain ⟨y, hy, rfl⟩ := hx
  exact div_nonneg (hv y hy) (Real.sqrt_nonneg _)

theorem overviewVector_nonneg (ctx : Context) (m : Movie) :
    ∀ x ∈ overviewVector ctx m, 0 ≤ x :=
  l2normalize_nonneg (tfidfVector_nonneg ctx m)

/-! ## String primitives, modelled structurally over the char list so
they evaluate by kernel reduction -/

/-- Whitespace trimming at both ends, the semantics of JavaScript
`String.prototype.trim` used by the client and of the spec's "empty or
whitespace-only" validation. -/
def strTrim (s : String) : String :=
  String.mk (((s.data.dropWhile Char.isWhitespace).reverse.dropWhile
    Char.isWhitespace).reverse)

/-- Character-wise lowercasing, the semantics of `String.toLowerCase`
for the matcher's case-insensitive comparisons. -/
def strToLower (s : String) : String :=
  String.mk (s.data.map Char.toLower)

/-- Does the first list start with the second? -/
def listStartsWith : List Char → List Char → Bool
  | _, [] => true
  | [], _ :: _ => false
  | a :: as, b :: bs => a == b && listStartsWith as bs

/-- Does the second list occur contiguously inside the first? -/
def listContainsSub : List Char → List Char → Bool
  | [], p => p.isEmpty
  | a :: rest, p => listStartsWith (a :: rest) p || listContainsSub rest p

/-- Substring containment, the semantics of `String.includes` used for
the matcher's substring phase. -/
def strContains (t p : String) : Bool :=
  listContainsSub t.data p.data

/-! ## Query validation and renormalization (spec §3, §7) -/

/-- Modelled from the spec: renormalization (spec §3, glossary): divide
each weight by the sum so the pair sums to 1 while preserving the ratio.
Dividing by the sum is the identity when the sum is already 1. -/
def renormalize (gw ow : ℚ) : ℚ × ℚ :=
  (gw / (gw + ow), ow / (gw + ow))

/-- Modelled from the spec: query validation (spec §7): empty movie name,
negative weight, or weights summing to zero each yield a human-readable
reason; `none` means the query is valid. -/
def validate (q : SimilarityQuery) : Option String :=
  if strTrim q.movieName = "" then some "Movie name must not be empty."
  else if q.genreWeight < 0 ∨ q.overviewWeight < 0 then
    some "Similarity weights must not be negative."
  else if q.genreWeight + q.overviewWeight = 0 then
    some "Similarity weights must not sum to zero."
  else none

theorem renormalize_sum_eq_one {gw ow : ℚ} (h2 : 0 < gw + ow) :
    (renormalize gw ow).1 + (renormalize gw ow).2 = 1 := by
  have hne : gw + ow ≠ 0 := ne_of_gt h2
  simp only [renormalize]
  field_simp

theorem renormalize_nonneg {gw ow : ℚ} (h0 : 0 ≤ gw) (h1 : 0 ≤ ow) :
    0 ≤ (renormalize gw ow).1 ∧ 0 ≤ (renormalize gw ow).2 := by
  constructor <;> exact div_nonneg (by assumption) (by positivity)

/-! ## Movie matcher (spec §4.3) -/

/-- Modelled from the spec: the movie matcher (spec §4.3):
case-insensitive exact title match first; otherwise case-insensitive
substring match, preferring the highest rating, tie-broken by shortest
title; `none` when no candidate remains.  The language filter is not
applied here. -/
def matchMovie (catalog : List Movie) (name : String) : Option Movie :=
  let q := strToLower name
  match catalog.filter (fun m => strToLower m.title == q) with
  | m :: _ => some m
  | [] =>
    match catalog.filter (fun m => strContains (strToLower m.title) q) with
    | [] => none
    | m :: rest =>
        some (rest.foldl (fun best c =>
          if best.rating < c.rating then c
          else if c.rating == best.rating && c.title.length < best.title.length then c
          else best) m)

/-! ## Similarity engine (spec §4.4) -/

/-- Modelled from the spec: eligible candidates (spec §4.4): every
catalog movie other than the matched movie, restricted to the filter
language when one is set. -/
def candidateList (catalog : List Movie) (matched : Movie)
    (langFilter : Option String) : List Movie :=
  (catalog.filter (fun m => m.id != matched.id)).filter (fun m =>
    match langFilter with
    | none => true
    | some l => strToLower m.language == strToLower l)

/-- Modelled from the spec: score one candidate (spec §4.4): genre cosine,
overview cosine, and their combination under the renormalized weights. -/
noncomputable def scoreCand (ctx : Context) (gw' ow' : ℚ)
    (matched cand : Movie) : RecCore :=
  let vocab := genreVocabulary ctx
  let gs := cosineSim (genreVector vocab matched) (genreVector vocab cand)
  let os := cosineSim (overviewVector ctx matched) (overviewVector ctx cand)
  { movie := cand
    genreSimilarity := gs
    overviewSimilarity := os
    combinedSimilarity := (gw' : ℝ) * gs + (ow' : ℝ) * os }

/-! ## Ranker (spec §4.5) -/

/-- Modelled from the spec: the ranking order (spec §4.5): combined
similarity descending, ties by rating descending, then title ascending. -/
def recOrd (a b : RecCore) : Prop :=
  b.combinedSimilarity < a.combinedSimilarity ∨
    (a.combinedSimilarity = b.combinedSimilarity ∧
      (b.movie.rating < a.movie.rating ∨
        (a.movie.rating = b.movie.rating ∧ a.movie.title ≤ b.movie.title)))

noncomputable instance recOrdDec : DecidableRel recOrd :=
  fun _ _ => Classical.propDecidable _

instance recOrdTotal : IsTotal RecCore recOrd where
  total a b := by
    rcases lt_trichotomy a.combinedSimilarity b.combinedSimilarity with h | h | h
    · exact Or.inr (Or.inl h)
    · rcases lt_trichotomy a.movie.rating b.movie.rating with hr | hr | hr
      · exact Or.inr (Or.inr ⟨h.symm, Or.inl hr⟩)
      · rcases le_total a.movie.title b.movie.title with ht | ht
        · exact Or.inl (Or.inr ⟨h, Or.inr ⟨hr, ht⟩⟩)
        · exact Or.inr (Or.inr ⟨h.symm, Or.inr ⟨hr.symm, ht⟩⟩)
      · exact Or.inl (Or.inr ⟨h, Or.inl hr⟩)
    · exact Or.inl (Or.inl h)

instance recOrdTrans : IsTrans RecCore recOrd where
  trans a b c hab hbc := by
    rcases hab with hab | ⟨hab, hab'⟩
    · rcases hbc with hbc | ⟨hbc, _⟩
      · exact Or.inl (lt_trans hbc hab)
      · exact Or.inl (hbc ▸ hab)
    · rcases hbc with hbc | ⟨hbc, hbc'⟩
      · exact Or.inl (hab ▸ hbc)
      · refine Or.inr ⟨hab.trans hbc, ?_⟩
        rcases hab' with hr | ⟨hr, ht⟩
        · rcases hbc' with hr2 | ⟨hr2, _⟩
          · exact Or.inl (lt_trans hr2 hr)
          · exact Or.inl (hr2 ▸ hr)
        · rcases hbc' with hr2 | ⟨hr2, ht2⟩
          · exact Or.inl (hr ▸ hr2)
          · exact Or.inr ⟨hr.trans hr2, le_trans ht ht2⟩

/-- Attach 1-based ranks, counting from `n`. -/
def assignRanks : ℕ → List RecCore → List Recommendation
  | _, [] => []
  | n, c :: cs =>
      { movie := c.movie
        genreSimilarity := c.genreSimilarity
        overviewSimilarity := c.overviewSimilarity
        combinedSimilarity := c.combinedSimilarity
        rank := n } :: assignRanks (n + 1) cs

/-- Modelled from the spec: the configured result size (spec §4.5,
default top 10). -/
def defaultResultSize : ℕ := 10

/-- Modelled from the spec: the ranker (spec §4.5): sort by the ranking
order, truncate to the result size, attach 1-based ranks. -/
noncomputable def rankRecs (size : ℕ) (rs : List RecCore) : List Recommendation :=
  assignRanks 1 ((List.insertionSort recOrd rs).take size)

/-! ## The Recommend operation (spec §6) -/

/-- Modelled from the spec: the end-to-end Recommend operation (spec §6):
validate, match, score eligible candidates, rank, and report an
explanatory message when no candidate survives the language filter. -/
noncomputable def recommendResult (ctx : Context) (q : SimilarityQuery) :
    Except RecommendError RecommendResult :=
  match validate q with
  | some reason => .error (.validation reason)
  | none =>
    match matchMovie ctx.catalog q.movieName with
    | none => .error .notFound
    | some m =>
        let w := renormalize q.genreWeight q.overviewWeight
        let cands := candidateList ctx.catalog m q.languageFilter
        let ranked := rankRecs defaultResultSize (cands.map (scoreCand ctx w.1 w.2 m))
        .ok { searched := m
              recommendations := ranked
              message := if ranked.isEmpty then
                  some "No recommendations found for this movie." else none }

/-! ## History store (spec §4.6) -/

/-- Modelled from the spec: the caller-supplied payload of a history
entry (spec §3 "HistoryEntry" minus the store-assigned id/timestamp):
searched movie snapshot, query parameters, ordered recommendations,
and the recommendation count. -/
structure EntryData where
  searchedMovie : Movie
  query : SimilarityQuery
  recommendations : List Recommendation
  numRecommendations : ℕ

/-- Modelled from the spec: a stored history entry with its assigned id
and creation timestamp. -/
structure StoredEntry where
  id : ℕ
  timestamp : ℕ
  data : EntryData

/-- Modelled from the spec: the History Store (spec §4.6): monotonically
increasing next id and the entries, most recent first. -/
structure HistoryStore where
  nextId : ℕ
  entries : List StoredEntry

namespace HistoryStore

/-- Modelled from the spec: `append(entry) -> id` (spec §4.6): assigns
the next id, stores the entry (most recent first). -/
def append (s : HistoryStore) (d : EntryData) (ts : ℕ) : ℕ × HistoryStore :=
  (s.nextId, { nextId := s.nextId + 1
               entries := { id := s.nextId, timestamp := ts, data := d } :: s.entries })

/-- Modelled from the spec: `get(id) -> entry or NotFound` (spec §4.6). -/
def get (s : HistoryStore) (id : ℕ) : Option StoredEntry :=
  s.entries.find? (fun e => e.id == id)

/-- Modelled from the spec: `list(limit) -> most recent first`
(spec §4.6). -/
def listEntries (s : HistoryStore) (limit : ℕ) : List StoredEntry :=
  s.entries.take limit

/-- Modelled from the spec: `delete(id) -> success or NotFound`
(spec §4.6). -/
def deleteEntry (s : HistoryStore) (id : ℕ) : Option HistoryStore :=
  if s.entries.any (fun e => e.id == id) then
    some { s with entries := s.entries.filter (fun e => e.id != id) }
  else none

/-- Modelled from the spec: `clear() -> removes all entries`
(spec §4.6). -/
def clear (s : HistoryStore) : HistoryStore :=
  { s with entries := [] }

end HistoryStore

/-! ## Statistics aggregator (spec §4.7) -/

/-- Modelled from the spec: the Statistics record (spec §3): entry count,
summed recommendation counts, and the most searched title with its
occurrence count (`none` with count 0 over an empty store). -/
structure Statistics where
  totalSearches : ℕ
  totalRecommendations : ℕ
  mostSearched : Option String
  mostSearchedCount : ℕ
deriving DecidableEq, Repr

/-- Occurrences of a searched title among the stored entries. -/
def countTitle (entries : List StoredEntry) (t : String) : ℕ :=
  (entries.filter (fun e => e.data.searchedMovie.title == t)).length

/-- Modelled from the spec: `compute() -> Statistics` (spec §4.7),
scanning the entries; the fold runs most-recent-first and replaces the
best title only on a strictly greater count, so ties are won by the most
recent occurrence. -/
def computeStatistics (s : HistoryStore) : Statistics :=
  let best := s.entries.foldl (fun acc e =>
    let t := e.data.searchedMovie.title
    let c := countTitle s.entries t
    match acc with
    | none => some (t, c)
    | some (bt, bc) => if bc < c then some (t, c) else some (bt, bc)) none
  { totalSearches := s.entries.length
    totalRecommendations := (s.entries.map (fun e => e.data.numRecommendations)).sum
    mostSearched := best.map Prod.fst
    mostSearchedCount := match best with
      | some (_, c) => c
      | none => 0 }

/-! ## Client model, embedded from `App.jsx` -/

/-- The searched-movie snapshot rendered by the client (`App.jsx`
fields `title`, `year`, `rating`, `language`, `genres`, `overview`). -/
structure MovieSnapshot where
  title : String
  year : ℤ
  rating : ℚ
  language : String
  genres : List String
  overview : String
deriving DecidableEq, Repr

/-- One recommendation object as rendered by the client (`App.jsx`:
`rec.title`, `rec.rank`, `rec.release_date`, `rec.rating`,
`rec.language`, `rec.genres`, `rec.similarity`, `rec.genre_similarity`,
`rec.overview_similarity`, `rec.overview`). -/
structure ClientRec where
  title : String
  rank : Option ℕ
  release_date : Option String
  rating : ℚ
  language : String
  genres : List String
  similarity : ℚ
  genre_similarity : ℚ
  overview_similarity : ℚ
  overview : String
deriving DecidableEq, Repr

/-- One history list item as rendered by the client (`App.jsx` history
view: `item.id`, `item.searched_movie`, `item.year`, `item.language`,
`item.num_recommendations`, `item.timestamp`, `item.genre_weight`,
`item.overview_weight`). -/
structure HistoryItem where
  id : ℕ
  searched_movie : String
  year : ℤ
  language : String
  num_recommendations : ℕ
  timestamp : String
  genre_weight : ℚ
  overview_weight : ℚ
deriving DecidableEq, Repr

/-- The history-detail payload loaded by `loadHistoryDetails`
(`data.details`: id, searched movie snapshot, recommendations). -/
structure HistoryDetails where
  id : ℕ
  searched_movie : MovieSnapshot
  recommendations : List ClientRec
deriving DecidableEq, Repr

/-- The statistics payload rendered by the client
(`statistics.total_searches`, `statistics.total_recommendations`,
`statistics.most_searched.movie`, `statistics.most_searched.count`). -/
structure ClientStats where
  total_searches : ℕ
  total_recommendations : ℕ
  most_searched_movie : String
  most_searched_count : ℕ
deriving DecidableEq, Repr

/-- The client component state: one field per `useState` hook of `App`
(`App.jsx` lines 6–21). -/
structure ClientState where
  movieName : String
  language : String
  genreWeight : ℚ
  overviewWeight : ℚ
  searchedMovie : Option MovieSnapshot
  recommendations : List ClientRec
  loading : Bool
  error : String
  showHistory : Bool
  history : List HistoryItem
  historyLoading : Bool
  selectedHistory : Option HistoryDetails
  statistics : Option ClientStats
deriving DecidableEq, Repr

/-- `handleGenreWeightChange` (`App.jsx`): sets the genre weight and
keeps the pair complementary by setting the overview weight to its
complement. -/
def handleGenreWeightChange (s : ClientState) (value : ℚ) : ClientState :=
  { s with genreWeight := value, overviewWeight := 1 - value }

/-- The `/api/recommend` response as consumed by `getRecommendations`:
`data.success`, `data.error`, `data.searched_movie`,
`data.recommendations`, `data.message`; a successful call also triggers
`fetchHistory()` and `fetchStatistics()`, whose eventual payloads (when
their own `success` flags are set) ride along here. -/
inductive ServerResponse where
  | failure (error : Option String)
  | success (searched : MovieSnapshot) (recs : List ClientRec)
      (message : Option String) (hist : Option (List HistoryItem))
      (stats : Option ClientStats)
deriving DecidableEq, Repr

/-- `getRecommendations` (`App.jsx` lines 129–180) as a state
transition.  Returns the new state and whether the HTTP request was
issued: an empty (whitespace-only) movie name sets the error and returns
before any request; otherwise the stale result is cleared, and the
response either sets the error (clearing the result again) or installs
the searched movie and recommendations, with the explanatory message
surfaced as the error text when the list is empty. -/
def getRecommendations (s : ClientState) (resp : ServerResponse) :
    ClientState × Bool :=
  if strTrim s.movieName = "" then
    ({ s with error := "Please enter a movie name." }, false)
  else
    let s1 := { s with loading := true, error := "", searchedMovie := none,
                       recommendations := [], selectedHistory := none }
    match resp with
    | .failure e =>
        ({ s1 with error := e.getD "Failed to get recommendations",
                   searchedMovie := none, recommendations := [],
                   loading := false }, true)
    | .success sm recs msg hist stats =>
        let s2 := { s1 with searchedMovie := some sm, recommendations := recs }
        let s3 := if recs.isEmpty then
            { s2 with error := msg.getD "No recommendations found for this movie." }
          else s2
        ({ s3 with history := hist.getD s3.history,
                   statistics := match stats with
                     | some st => some st
                     | none => s3.statistics,
                   loading := false }, true)

/-- `deleteHistoryItem` (`App.jsx` lines 80–102) as a state transition.
Returns the new state and whether the HTTP request was issued: a
declined confirmation dialog returns immediately; on a successful
response the history list is refreshed and, when the deleted id is the
selected entry's id, the detail view is cleared. -/
def deleteHistoryItem (s : ClientState) (historyId : ℕ) (confirmed : Bool)
    (respSuccess : Bool) (freshHistory : Option (List HistoryItem)) :
    ClientState × Bool :=
  if !confirmed then (s, false)
  else if respSuccess then
    let s1 := { s with history := freshHistory.getD s.history }
    match s.selectedHistory with
    | some sh =>
        if sh.id = historyId then
          ({ s1 with selectedHistory := none, searchedMovie := none,
                     recommendations := [] }, true)
        else (s1, true)
    | none => (s1, true)
  else (s, true)

/-- `clearAllHistory` (`App.jsx` lines 105–126) as a state transition.
Returns the new state and whether the HTTP request was issued: a
declined confirmation dialog returns immediately; on a successful
response the history, detail view and result view are cleared and the
statistics are refetched. -/
def clearAllHistory (s : ClientState) (confirmed : Bool)
    (respSuccess : Bool) (freshStats : Option ClientStats) :
    ClientState × Bool :=
  if !confirmed then (s, false)
  else if respSuccess then
    ({ s with history := [], selectedHistory := none, searchedMovie := none,
              recommendations := [],
              statistics := match freshStats with
                | some st => some st
                | none => s.statistics }, true)
  else (s, true)

/-! ## Helper lemmas about the ranker and the pipeline -/

/-- The ranking order transported to ranked recommendations (spec §4.5):
combined similarity descending, ties by rating descending, then title
ascending. -/
def recBefore (a b : Recommendation) : Prop :=
  b.combinedSimilarity < a.combinedSimilarity ∨
    (a.combinedSimilarity = b.combinedSimilarity ∧
      (b.movie.rating < a.movie.rating ∨
        (a.movie.rating = b.movie.rating ∧ a.movie.title ≤ b.movie.title)))

theorem recBefore_of_recOrd {a b : RecCore} {x y : Recommendation}
    (hx1 : x.movie = a.movie) (hx2 : x.combinedSimilarity = a.combinedSimilarity)
    (hy1 : y.movie = b.movie) (hy2 : y.combinedSimilarity = b.combinedSimilarity)
    (h : recOrd a b) : recBefore x y := by
  unfold recBefore
  unfold recOrd at h
  rw [hx1, hx2, hy1, hy2]
  exact h

theorem mem_assignRanks {r : Recommendation} :
    ∀ (n : ℕ) (l : List RecCore), r ∈ assignRanks n l →
    ∃ c ∈ l, r.movie = c.movie ∧ r.genreSimilarity = c.genreSimilarity ∧
      r.overviewSimilarity = c.overviewSimilarity ∧
      r.combinedSimilarity = c.combinedSimilarity := by
  intro n l
  induction l generalizing n with
  | nil => simp [assignRanks]
  | cons c cs ih =>
      intro h
      rw [assignRanks] at h
      rcases List.mem_cons.mp h with h | h
      · subst h
        exact ⟨c, by simp, rfl, rfl, rfl, rfl⟩
      · obtain ⟨d, hd, hf⟩ := ih (n + 1) h
        exact ⟨d, by simp [hd], hf⟩

theorem assignRanks_map_rank :
    ∀ (n : ℕ) (l : List RecCore),
    (assignRanks n l).map Recommendation.rank = List.range' n l.length := by
  intro n l
  induction l generalizing n with
  | nil => simp [assignRanks]
  | cons c cs ih => simp [assignRanks, List.range', ih (n + 1)]

theorem assignRanks_length (n : ℕ) (l : List RecCore) :
    (assignRanks n l).length = l.length := by
  induction l generalizing n with
  | nil => simp [assignRanks]
  | cons c cs ih => simp [assignRanks, ih (n + 1)]

theorem assignRanks_pairwise :
    ∀ (n : ℕ) {l : List RecCore}, l.Pairwise recOrd →
    (assignRanks n l).Pairwise recBefore := by
  intro n l
  induction l generalizing n with
  | nil =>
      intro _
      simp [assignRanks]
  | cons c cs ih =>
      intro h
      rw [List.pairwise_cons] at h
      obtain ⟨hhead, htail⟩ := h
      rw [assignRanks, List.pairwise_cons]
      refine ⟨?_, ih (n + 1) htail⟩
      intro y hy
      obtain ⟨d, hd, hy1, _, _, hy2⟩ := mem_assignRanks (n + 1) cs hy
      exact recBefore_of_recOrd rfl rfl hy1 hy2 (hhead d hd)

theorem mem_rankRecs {r : Recommendation} {size : ℕ} {rs : List RecCore}
    (h : r ∈ rankRecs size rs) :
    ∃ c ∈ rs, r.movie = c.movie ∧ r.genreSimilarity = c.genreSimilarity ∧
      r.overviewSimilarity = c.overviewSimilarity ∧
      r.combinedSimilarity = c.combinedSimilarity := by
  unfold rankRecs at h
  obtain ⟨c, hc, hf⟩ := mem_assignRanks _ _ h
  have h1 : c ∈ List.insertionSort recOrd rs := List.take_subset size _ hc
  have h2 : c ∈ rs := (List.perm_insertionSort recOrd rs).mem_iff.mp h1
  exact ⟨c, h2, hf⟩

theorem rankRecs_nil (size : ℕ) : rankRecs size [] = [] := by
  simp [rankRecs, assignRanks]

/-- Inversion of a successful Recommend operation. -/
theorem recommendResult_ok {ctx : Context} {q : SimilarityQuery}
    {res : RecommendResult} (h : recommendResult ctx q = .ok res) :
    validate q = none ∧
    matchMovie ctx.catalog q.movieName = some res.searched ∧
    res.recommendations = rankRecs defaultResultSize
      ((candidateList ctx.catalog res.searched q.languageFilter).map
        (scoreCand ctx (renormalize q.genreWeight q.overviewWeight).1
          (renormalize q.genreWeight q.overviewWeight).2 res.searched)) := by
  unfold recommendResult at h
  split at h
  · exact absurd h (by simp)
  · split at h
    · exact absurd h (by simp)
    · rw [Except.ok.injEq] at h
      subst h
      refine ⟨by assumption, by assumption, rfl⟩

/-! ## Claim conclusions as named predicates -/

/-- Every recommendation in the list has all three similarity scores in
the closed interval `[0, 1]`. -/
def similaritiesInUnitInterval (l : List Recommendation) : Prop :=
  ∀ r ∈ l, 0 ≤ r.genreSimilarity ∧ r.genreSimilarity ≤ 1 ∧
    0 ≤ r.overviewSimilarity ∧ r.overviewSimilarity ≤ 1 ∧
    0 ≤ r.combinedSimilarity ∧ r.combinedSimilarity ≤ 1

/-- Whenever the outcome is a success, its recommendations all have
similarity scores in `[0, 1]`. -/
def okRecsBounded (o : Except RecommendError RecommendResult) : Prop :=
  ∀ res, o = .ok res → similaritiesInUnitInterval res.recommendations

/-- Whenever the outcome is a success, every returned recommendation
references a catalog movie distinct (also by id) from the searched
movie the query resolved to. -/
def noSelfRecommendation (catalog : List Movie)
    (o : Except RecommendError RecommendResult) : Prop :=
  ∀ res, o = .ok res → ∀ r ∈ res.recommendations,
    r.movie ∈ catalog ∧ r.movie.id ≠ res.searched.id ∧ r.movie ≠ res.searched

/-! ## Claim theorems -/

/-- C2: for every successful recommendation request, the matched
(searched) movie never appears among the returned recommendations:
every recommendation references a catalog movie distinct from the movie
the query resolved to. -/
theorem recommend_never_returns_searched_movie (ctx : Context)
    (q : SimilarityQuery) :
    noSelfRecommendation ctx.catalog (recommendResult ctx q) := by
  intro res hres r hr
  obtain ⟨-, -, hrecs⟩ := recommendResult_ok hres
  rw [hrecs] at hr
  obtain ⟨c, hc, hmv, -, -, -⟩ := mem_rankRecs hr
  obtain ⟨cand, hcand, rfl⟩ := List.mem_map.mp hc
  have hmv' : r.movie = cand := by
    rw [hmv]; simp [scoreCand]
  rw [candidateList] at hcand
  have h1 := List.mem_filter.mp hcand
  have h2 := List.mem_filter.mp h1.1
  have hid : cand.id ≠ res.searched.id := by
    have := h2.2
    simpa using this
  refine ⟨by rw [hmv']; exact h2.1, by rw [hmv']; exact hid, ?_⟩
  rw [hmv']
  intro hEq
  exact hid (congrArg Movie.id hEq)

/-- C3: the ranked list produced by the ranker is sorted by combined
similarity descending with ties broken by rating descending then title
ascending, carries the 1-based ranks `1, 2, …`, and is truncated to the
configured result size (default 10). -/
theorem ranker_sorts_ranks_and_truncates (rs : List RecCore) :
    (rankRecs defaultResultSize rs).Pairwise recBefore ∧
    (rankRecs defaultResultSize rs).map Recommendation.rank =
      List.range' 1 (rankRecs defaultResultSize rs).length ∧
    (rankRecs defaultResultSize rs).length = min defaultResultSize rs.length := by
  refine ⟨?_, ?_, ?_⟩
  · unfold rankRecs
    apply assignRanks_pairwise
    exact ((List.sorted_insertionSort recOrd rs).sublist
      (List.take_sublist defaultResultSize _))
  · unfold rankRecs
    rw [assignRanks_map_rank, assignRanks_length]
  · unfold rankRecs
    rw [assignRanks_length, List.length_take,
      (List.perm_insertionSort recOrd rs).length_eq]

/-- C4: when the query is valid and the matched movie exists but no
candidate passes the language filter, the Recommend operation succeeds
with an empty recommendation sequence plus an explanatory message; it is
not an error, and in particular not the NotFound failure. -/
theorem recommend_empty_candidates_is_success (ctx : Context)
    (q : SimilarityQuery) (m : Movie)
    (hv : validate q = none)
    (hm : matchMovie ctx.catalog q.movieName = some m)
    (hc : candidateList ctx.catalog m q.languageFilter = []) :
    recommendResult ctx q =
      .ok { searched := m, recommendations := [],
            message := some "No recommendations found for this movie." } ∧
    recommendResult ctx q ≠ .error RecommendError.notFound := by
  have hmain : recommendResult ctx q =
      .ok { searched := m, recommendations := [],
            message := some "No recommendations found for this movie." } := by
    unfold recommendResult
    rw [hv, hm]
    simp [hc, rankRecs_nil]
  exact ⟨hmain, by rw [hmain]; simp⟩

/-- Bounds for one scored candidate under renormalized nonnegative
weights summing to one. -/
theorem scoreCand_bounds (ctx : Context) {w1 w2 : ℚ} (matched cand : Movie)
    (hw1 : 0 ≤ w1) (hw2 : 0 ≤ w2) (hws : w1 + w2 = 1) :
    0 ≤ (scoreCand ctx w1 w2 matched cand).genreSimilarity ∧
    (scoreCand ctx w1 w2 matched cand).genreSimilarity ≤ 1 ∧
    0 ≤ (scoreCand ctx w1 w2 matched cand).overviewSimilarity ∧
    (scoreCand ctx w1 w2 matched cand).overviewSimilarity ≤ 1 ∧
    0 ≤ (scoreCand ctx w1 w2 matched cand).combinedSimilarity ∧
    (scoreCand ctx w1 w2 matched cand).combinedSimilarity ≤ 1 := by
  have hg0 : 0 ≤ cosineSim (genreVector (genreVocabulary ctx) matched)
      (genreVector (genreVocabulary ctx) cand) :=
    cosineSim_nonneg (genreVector_nonneg _ _) (genreVector_nonneg _ _)
  have hg1 := cosineSim_le_one (genreVector (genreVocabulary ctx) matched)
      (genreVector (genreVocabulary ctx) cand)
  have ho0 : 0 ≤ cosineSim (overviewVector ctx matched) (overviewVector ctx cand) :=
    cosineSim_nonneg (overviewVector_nonneg _ _) (overviewVector_nonneg _ _)
  have ho1 := cosineSim_le_one (overviewVector ctx matched) (overviewVector ctx cand)
  have hw1R : (0 : ℝ) ≤ (w1 : ℝ) := by exact_mod_cast hw1
  have hw2R : (0 : ℝ) ≤ (w2 : ℝ) := by exact_mod_cast hw2
  have hwsR : (w1 : ℝ) + (w2 : ℝ) = 1 := by exact_mod_cast hws
  simp only [scoreCand]
  refine ⟨hg0, hg1, ho0, ho1, ?_, ?_⟩
  · exact add_nonneg (mul_nonneg hw1R hg0) (mul_nonneg hw2R ho0)
  · calc (w1 : ℝ) * cosineSim (genreVector (genreVocabulary ctx) matched)
          (genreVector (genreVocabulary ctx) cand) +
        (w2 : ℝ) * cosineSim (overviewVector ctx matched) (overviewVector ctx cand)
        ≤ (w1 : ℝ) * 1 + (w2 : ℝ) * 1 :=
          add_le_add (mul_le_mul_of_nonneg_left hg1 hw1R)
            (mul_le_mul_of_nonneg_left ho1 hw2R)
      _ = 1 := by rw [mul_one, mul_one, hwsR]

/-- C1: for every valid SimilarityQuery (both weights nonnegative, their
sum positive), the renormalized weights sum to exactly 1, and every
returned recommendation has its genre, overview and combined similarity
scores in the closed interval `[0, 1]`. -/
theorem valid_query_weights_sum_one_and_similarities_bounded
    (ctx : Context) (q : SimilarityQuery)
    (h0 : 0 ≤ q.genreWeight) (h1 : 0 ≤ q.overviewWeight)
    (h2 : 0 < q.genreWeight + q.overviewWeight) :
    (renormalize q.genreWeight q.overviewWeight).1 +
      (renormalize q.genreWeight q.overviewWeight).2 = 1 ∧
    okRecsBounded (recommendResult ctx q) := by
  have hws := renormalize_sum_eq_one h2
  obtain ⟨hw1, hw2⟩ := renormalize_nonneg h0 h1
  refine ⟨hws, ?_⟩
  intro res hres r hr
  obtain ⟨-, -, hrecs⟩ := recommendResult_ok hres
  rw [hrecs] at hr
  obtain ⟨c, hc, -, hg, ho, hcb⟩ := mem_rankRecs hr
  obtain ⟨cand, -, rfl⟩ := List.mem_map.mp hc
  have hb := scoreCand_bounds ctx res.searched cand hw1 hw2 hws
  rw [hg, ho, hcb]
  exact hb

/-- C5: a query whose movie name is empty or whitespace-only fails with
a ValidationError carrying a human-readable (nonempty) reason, and on
the client side `getRecommendations` sets the error text and returns
before issuing any HTTP request, leaving the rest of the state
untouched. -/
theorem empty_movie_name_fails_validation (ctx : Context)
    (q : SimilarityQuery) (s : ClientState) (resp : ServerResponse)
    (hq : strTrim q.movieName = "") (hs : strTrim s.movieName = "") :
    recommendResult ctx q =
      .error (.validation "Movie name must not be empty.") ∧
    "Movie name must not be empty." ≠ "" ∧
    getRecommendations s resp =
      ({ s with error := "Please enter a movie name." }, false) := by
  refine ⟨?_, by simp, ?_⟩
  · unfold recommendResult validate
    rw [if_pos hq]
  · unfold getRecommendations
    rw [if_pos hs]

/-- C6: computing statistics over an empty history store yields zero
total searches, zero total recommendations, and no most-searched title
with count 0; the computation is total and cannot fail. -/
theorem statistics_of_empty_store (s : HistoryStore) (h : s.entries = []) :
    computeStatistics s =
      { totalSearches := 0, totalRecommendations := 0,
        mostSearched := none, mostSearchedCount := 0 } := by
  simp [computeStatistics, h]

/-- C7: appending an entry to the history store and then getting the
assigned id returns a stored entry whose payload equals the appended
entry exactly, the only other fields being the assigned id and the
creation timestamp. -/
theorem history_append_get_roundtrip (s : HistoryStore) (d : EntryData)
    (ts : ℕ) :
    (s.append d ts).2.get (s.append d ts).1 =
      some { id := (s.append d ts).1, timestamp := ts, data := d } := by
  simp [HistoryStore.append, HistoryStore.get]

/-- C8: whenever the `/api/recommend` response reports failure, the new
client state has no searched movie, an empty recommendation list, no
selected history entry, and the error text taken from the response (with
the hard-coded fallback); no stale result from a previous query
remains. -/
theorem failure_response_clears_client_state (s : ClientState)
    (e : Option String) (h : strTrim s.movieName ≠ "") :
    getRecommendations s (.failure e) =
      ({ s with loading := false,
                error := e.getD "Failed to get recommendations",
                searchedMovie := none, recommendations := [],
                selectedHistory := none }, true) := by
  unfold getRecommendations
  rw [if_neg h]

/-- C9: a declined confirmation dialog makes `deleteHistoryItem` and
`clearAllHistory` return immediately: no HTTP request is issued and the
client state is returned unchanged. -/
theorem declined_confirmation_changes_nothing (s : ClientState) (id : ℕ)
    (rs1 rs2 : Bool) (nh : Option (List HistoryItem))
    (st : Option ClientStats) :
    deleteHistoryItem s id false rs1 nh = (s, false) ∧
    clearAllHistory s false rs2 st = (s, false) := by
  constructor <;> rfl

/-- C10: after a successful `deleteHistoryItem` on the currently
selected entry's id, the detail view state is cleared (no selected
history, no searched movie, empty recommendations) while the history
list is refreshed; deleting a different id leaves the selected detail,
searched movie and recommendations unchanged. -/
theorem delete_selected_entry_clears_detail (s : ClientState)
    (sh : HistoryDetails) (nh : Option (List HistoryItem)) (id1 id2 : ℕ)
    (h : s.selectedHistory = some sh) (he : id1 = sh.id) (hn : id2 ≠ sh.id) :
    deleteHistoryItem s id1 true true nh =
      ({ s with history := nh.getD s.history, selectedHistory := none,
                searchedMovie := none, recommendations := [] }, true) ∧
    ((deleteHistoryItem s id2 true true nh).1.selectedHistory =
        s.selectedHistory ∧
      (deleteHistoryItem s id2 true true nh).1.searchedMovie =
        s.searchedMovie ∧
      (deleteHistoryItem s id2 true true nh).1.recommendations =
        s.recommendations) := by
  constructor
  · unfold deleteHistoryItem
    rw [h]
    simp [he]
  · have hne : sh.id ≠ id2 := fun hEq => hn hEq.symm
    unfold deleteHistoryItem
    rw [h]
    simp [hne, h]

/-! ## Concrete witness data -/

def movieInception : Movie :=
  { id := 1, title := "Inception", year := 2010, language := "english",
    genres := ["Sci-Fi", "Thriller"], overview := ["dream", "heist"],
    rating := 9 }

def movieInterstellar : Movie :=
  { id := 2, title := "Interstellar", year := 2014, language := "english",
    genres := ["Sci-Fi", "Drama"], overview := ["space", "time", "travel"],
    rating := 8 }

def ctxPair : Context :=
  { catalog := [movieInception, movieInterstellar],
    termVocab := ["dream", "heist", "space", "time", "travel"],
    idf := [1, 1, 1, 1, 1], idf_nonneg := by decide }

def ctxSolo : Context :=
  { catalog := [movieInception], termVocab := ["dream", "heist"],
    idf := [1, 1], idf_nonneg := by decide }

def queryInception : SimilarityQuery :=
  { movieName := "inception", languageFilter := none,
    genreWeight := 7/10, overviewWeight := 3/10 }

def queryBlank : SimilarityQuery :=
  { movieName := " ", languageFilter := none,
    genreWeight := 7/10, overviewWeight := 3/10 }

def querySolo : SimilarityQuery :=
  { movieName := "inception", languageFilter := none,
    genreWeight := 1, overviewWeight := 0 }

def snapshotDangal : MovieSnapshot :=
  { title := "Dangal", year := 2016, rating := 83/10, language := "hindi",
    genres := ["Drama", "Sport"], overview := "wrestling story" }

def staleRec : ClientRec :=
  { title := "URI", rank := some 1, release_date := some "2019-01-11",
    rating := 84/10, language := "hindi", genres := ["Action"],
    similarity := 1/2, genre_similarity := 3/5, overview_similarity := 2/5,
    overview := "surgical strike" }

def stateBlank : ClientState :=
  { movieName := " ", language := "mixed", genreWeight := 7/10,
    overviewWeight := 3/10, searchedMovie := none, recommendations := [],
    loading := false, error := "", showHistory := false, history := [],
    historyLoading := false, selectedHistory := none, statistics := none }

def staleState : ClientState :=
  { movieName := "Dangal", language := "hindi", genreWeight := 7/10,
    overviewWeight := 3/10, searchedMovie := some snapshotDangal,
    recommendations := [staleRec], loading := true, error := "",
    showHistory := false, history := [], historyLoading := false,
    selectedHistory := none, statistics := none }

def detailSelected : HistoryDetails :=
  { id := 5, searched_movie := snapshotDangal, recommendations := [staleRec] }

def selectedState : ClientState :=
  { staleState with selectedHistory := some detailSelected }

def emptyStore : HistoryStore := { nextId := 0, entries := [] }

/-! ## Witnesses -/

/-- Witness for C1 at a concrete two-movie context and a concrete valid
query. -/
theorem valid_query_weights_sum_one_and_similarities_bounded_witness :
    (0 ≤ queryInception.genreWeight ∧ 0 ≤ queryInception.overviewWeight ∧
      0 < queryInception.genreWeight + queryInception.overviewWeight) ∧
    ((renormalize queryInception.genreWeight queryInception.overviewWeight).1 +
        (renormalize queryInception.genreWeight queryInception.overviewWeight).2 = 1 ∧
      okRecsBounded (recommendResult ctxPair queryInception)) :=
  ⟨⟨div_nonneg (by decide) (by decide), div_nonneg (by decide) (by decide),
      add_pos (div_pos (by decide) (by decide)) (div_pos (by decide) (by decide))⟩,
    valid_query_weights_sum_one_and_similarities_bounded ctxPair queryInception
      (div_nonneg (by decide) (by decide)) (div_nonneg (by decide) (by decide))
      (add_pos (div_pos (by decide) (by decide)) (div_pos (by decide) (by decide)))⟩

/-- Witness for C4 at a one-movie catalog whose only movie matches the
query, so that no candidate survives. -/
theorem recommend_empty_candidates_is_success_witness :
    (validate querySolo = none ∧
      matchMovie ctxSolo.catalog querySolo.movieName = some movieInception ∧
      candidateList ctxSolo.catalog movieInception querySolo.languageFilter = []) ∧
    (recommendResult ctxSolo querySolo =
        .ok { searched := movieInception, recommendations := [],
              message := some "No recommendations found for this movie." } ∧
      recommendResult ctxSolo querySolo ≠ .error RecommendError.notFound) :=
  ⟨⟨by simp +decide [validate, querySolo], by decide, by decide⟩,
    recommend_empty_candidates_is_success ctxSolo querySolo movieInception
      (by simp +decide [validate, querySolo]) (by decide) (by decide)⟩

/-- Witness for C5 at a whitespace-only movie name, on the engine and
the client at once. -/
theorem empty_movie_name_fails_validation_witness :
    (strTrim queryBlank.movieName = "" ∧ strTrim stateBlank.movieName = "") ∧
    (recommendResult ctxSolo queryBlank =
        .error (.validation "Movie name must not be empty.") ∧
      "Movie name must not be empty." ≠ "" ∧
      getRecommendations stateBlank (.failure none) =
        ({ stateBlank with error := "Please enter a movie name." }, false)) :=
  ⟨⟨by decide, by decide⟩,
    empty_movie_name_fails_validation ctxSolo queryBlank stateBlank
      (.failure none) (by decide) (by decide)⟩

/-- Witness for C6 at the concrete empty store. -/
theorem statistics_of_empty_store_witness :
    emptyStore.entries = [] ∧
    computeStatistics emptyStore =
      { totalSearches := 0, totalRecommendations := 0,
        mostSearched := none, mostSearchedCount := 0 } :=
  ⟨rfl, statistics_of_empty_store emptyStore rfl⟩

/-- Witness for C8 at a concrete state holding a stale result and a
concrete failure response. -/
theorem failure_response_clears_client_state_witness :
    strTrim staleState.movieName ≠ "" ∧
    getRecommendations staleState (.failure (some "Movie not found")) =
      ({ staleState with
          loading := false,
          error := (some "Movie not found").getD "Failed to get recommendations",
          searchedMovie := none, recommendations := [],
          selectedHistory := none }, true) :=
  ⟨by decide,
    failure_response_clears_client_state staleState (some "Movie not found")
      (by decide)⟩

/-- Witness for C10 at a concrete state whose selected entry has id 5,
deleting ids 5 and 7. -/
theorem delete_selected_entry_clears_detail_witness :
    (selectedState.selectedHistory = some detailSelected ∧
      (5 : ℕ) = detailSelected.id ∧ (7 : ℕ) ≠ detailSelected.id) ∧
    (deleteHistoryItem selectedState 5 true true (some []) =
        ({ selectedState with
            history := (some []).getD selectedState.history,
            selectedHistory := none, searchedMovie := none,
            recommendations := [] }, true) ∧
      ((deleteHistoryItem selectedState 7 true true (some [])).1.selectedHistory =
          selectedState.selectedHistory ∧
        (deleteHistoryItem selectedState 7 true true (some [])).1.searchedMovie =
          selectedState.searchedMovie ∧
        (deleteHistoryItem selectedState 7 true true (some [])).1.recommendations =
          selectedState.recommendations)) :=
  ⟨⟨rfl, rfl, by decide⟩,
    delete_selected_entry_clears_detail selectedState detailSelected (some [])
      5 7 rfl rfl (by decide)⟩
